import Mathlib

/-!
Verification of the matrixio-kernel-modules SPI register-transport layer and its
character-device adapters against their specification.

The adapters matrixio-regmap.c and matrixio-everloop.c are embedded directly from
the source under src/src/.  The transport core (matrixio-core.c / matrixio-core.h)
is not present in the tree; only its unit tests, mocks and callers are, so the
core-side definitions below are modelled from the specification and are marked as
such in their doc comments.
-/

/-- Linux errno constant EFAULT (bad user-space address), value 14. -/
def EFAULT : Int := 14

/-- Linux errno constant EINVAL (invalid argument), value 22. -/
def EINVAL : Int := 22

/-- Linux errno constant ENOMEM (out of memory), value 12. -/
def ENOMEM : Int := 12

/-- Linux errno constant EIOerrno (input/output error), value 5. -/
def EIOerrno : Int := 5

/-- Ioctl command code WR_VALUE of matrixio-regmap.c. -/
def WR_VALUE : Nat := 1200

/-- Ioctl command code RD_VALUE of matrixio-regmap.c. -/
def RD_VALUE : Nat := 1201

/-- Capacity in bytes of the kernel-side staging buffer of matrixio_regmap_ioctl:
the source declares static int32_t data[12000], i.e. 12000 * 4 = 48000 bytes. -/
def regmapStagingCapacity : Nat := 12000 * 4

/-- Value of a C int32_t after sign extension to long and conversion to the
unsigned long third argument of copy_from_user / copy_to_user (64-bit target). -/
def toULong (x : Int) : Nat := (x % (2 ^ 64)).toNat

/-- Observable actions of one matrixio_regmap_ioctl call, in program order:
copies between user space and the static staging buffer (destination byte offset
into the staging buffer, and byte count), and register operations issued to the
transport core. -/
inductive IoctlEvent where
  | copyFromUser (dstOffset : Nat) (count : Nat)
  | busWrite (addr : Int) (len : Int)
  | busRead (addr : Int) (len : Int)
  | copyToUser (count : Nat)
deriving DecidableEq

/-- Shallow embedding of matrixio_regmap_ioctl (src/src/matrixio-regmap.c, lines
35-65).  uaddr and ulen are the two int32_t words the user buffer starts with
(data[0] and data[1] after the first copy_from_user); hdrCopyOk is the success of
that first copy_from_user, payloadCopyOk the success of the second copy_from_user
of the WR_VALUE branch, outCopyOk the success of the copy_to_user of the RD_VALUE
branch; busRet is the value returned by the matrixio_write / matrixio_read call.
The result is the ioctl return value paired with the ordered trace of the staging
copies and register operations performed.  Note two faithful details of the
source: the WR_VALUE branch stages data[1] bytes at byte offset 8 of the staging
buffer with no bound check of any kind, and the RD_VALUE branch discards the
return value of matrixio_read and returns 0 when copy_to_user succeeds. -/
def matrixio_regmap_ioctl (cmd : Nat) (uaddr ulen : Int)
    (hdrCopyOk payloadCopyOk outCopyOk : Bool) (busRet : Int) :
    Int × List IoctlEvent :=
  if cmd = WR_VALUE then
    if hdrCopyOk = false then (-EFAULT, [IoctlEvent.copyFromUser 0 8])
    else if payloadCopyOk = false then
      (-EFAULT, [IoctlEvent.copyFromUser 0 8,
                 IoctlEvent.copyFromUser 8 (toULong ulen)])
    else
      (busRet, [IoctlEvent.copyFromUser 0 8,
                IoctlEvent.copyFromUser 8 (toULong ulen),
                IoctlEvent.busWrite uaddr ulen])
  else if cmd = RD_VALUE then
    if hdrCopyOk = false then (-EFAULT, [IoctlEvent.copyFromUser 0 8])
    else if outCopyOk = false then
      (-EFAULT, [IoctlEvent.copyFromUser 0 8,
                 IoctlEvent.busRead uaddr ulen,
                 IoctlEvent.copyToUser (toULong ulen)])
    else
      (0, [IoctlEvent.copyFromUser 0 8,
           IoctlEvent.busRead uaddr ulen,
           IoctlEvent.copyToUser (toULong ulen)])
  else (-EINVAL, [])

/-- C1: the claim says a length making header + payload exceed the 48000-byte
staging buffer is rejected with -EINVAL before any byte is copied.  The code has
no length check at all: a WR_VALUE request with data[1] = 47996 stages 47996
bytes at byte offset 8 — ending at byte 48004, past the 48000-byte staging
buffer — and then issues the register write, returning its result (here 0)
rather than -EINVAL. -/
theorem regmap_ioctl_overrun_unchecked :
    (matrixio_regmap_ioctl WR_VALUE 0 47996 true true true 0).1 = 0
    ∧ (matrixio_regmap_ioctl WR_VALUE 0 47996 true true true 0).1 ≠ -EINVAL
    ∧ IoctlEvent.copyFromUser 8 47996
        ∈ (matrixio_regmap_ioctl WR_VALUE 0 47996 true true true 0).2
    ∧ IoctlEvent.busWrite 0 47996
        ∈ (matrixio_regmap_ioctl WR_VALUE 0 47996 true true true 0).2
    ∧ regmapStagingCapacity < 8 + 47996 := by
  decide

/-- C3: the claim says every error raised during a read operation propagates as a
negative return value of the triggering file operation.  On the RD_VALUE path the
source discards the return value of matrixio_read: with the register read failing
with -EIOerrno the ioctl still issues the read and returns 0 (success) to user
space. -/
theorem regmap_ioctl_read_error_swallowed :
    (matrixio_regmap_ioctl RD_VALUE 0 4 true true true (-EIOerrno)).1 = 0
    ∧ IoctlEvent.busRead 0 4
        ∈ (matrixio_regmap_ioctl RD_VALUE 0 4 true true true (-EIOerrno)).2 := by
  decide

/-- C9: for every ioctl command code other than WR_VALUE (1200) and RD_VALUE
(1201), matrixio_regmap_ioctl returns -EINVAL and performs no register operation
and no copy to or from user space (its event trace is empty). -/
theorem regmap_ioctl_unknown_cmd (cmd : Nat) (uaddr ulen : Int)
    (hdrCopyOk payloadCopyOk outCopyOk : Bool) (busRet : Int)
    (hw : cmd ≠ WR_VALUE) (hr : cmd ≠ RD_VALUE) :
    matrixio_regmap_ioctl cmd uaddr ulen hdrCopyOk payloadCopyOk outCopyOk busRet
      = (-EINVAL, []) := by
  simp [matrixio_regmap_ioctl, hw, hr]

/-- Witness for C9: command code 0 is neither WR_VALUE nor RD_VALUE, and the
ioctl returns -EINVAL with an empty event trace. -/
theorem regmap_ioctl_unknown_cmd_witness :
    matrixio_regmap_ioctl 0 0 0 true true true 0 = (-EINVAL, []) :=
  regmap_ioctl_unknown_cmd 0 0 0 true true true 0 (by decide) (by decide)

/-- Modelled from the spec: MATRIXIO_EVERLOOP_BASE, the fixed everloop register
base address.  The constant is declared in matrixio-core.h, which is absent from
src/, so its numeric value is not recoverable from the tree; no claim below
depends on the value, only on the address being this one fixed constant. -/
def MATRIXIO_EVERLOOP_BASE : Nat := 0x3000

/-- Shallow embedding of matrixio_everloop_write (src/src/matrixio-everloop.c,
lines 21-41).  length is the user write size; allocOk says whether kmalloc
returned a buffer, copyOk whether copy_from_user succeeded, and writeRet is the
int returned by matrixio_write.  The result is the ssize_t return value of the
file operation together with the register write actually forwarded to the bus as
(address, byte count) — none when the operation never reaches the device. -/
def matrixio_everloop_write (length : Nat) (allocOk copyOk : Bool)
    (writeRet : Int) : Int × Option (Nat × Nat) :=
  if allocOk = false then (-ENOMEM, none)
  else if copyOk = false then (-EFAULT, none)
  else (if writeRet < 0 then writeRet else (length : Int),
        some (MATRIXIO_EVERLOOP_BASE, length))

/-- C10: matrixio_everloop_write returns -ENOMEM when allocation fails and
-EFAULT when the user copy fails, in both cases issuing no register write;
otherwise it forwards exactly length staged bytes to the fixed everloop base
address and returns length on success or the negative error of the underlying
matrixio_write. -/
theorem everloop_write_behaviour (length : Nat) (allocOk copyOk : Bool)
    (writeRet : Int) :
    (allocOk = false →
      matrixio_everloop_write length allocOk copyOk writeRet = (-ENOMEM, none))
    ∧ (allocOk = true → copyOk = false →
      matrixio_everloop_write length allocOk copyOk writeRet = (-EFAULT, none))
    ∧ (allocOk = true → copyOk = true →
      (matrixio_everloop_write length allocOk copyOk writeRet).2
          = some (MATRIXIO_EVERLOOP_BASE, length)
      ∧ (0 ≤ writeRet →
          (matrixio_everloop_write length allocOk copyOk writeRet).1
            = (length : Int))
      ∧ (writeRet < 0 →
          (matrixio_everloop_write length allocOk copyOk writeRet).1
            = writeRet)) := by
  refine ⟨fun ha => ?_, fun ha hc => ?_, fun ha hc => ⟨?_, fun hw => ?_, fun hw => ?_⟩⟩
  · simp [matrixio_everloop_write, ha]
  · simp [matrixio_everloop_write, ha, hc]
  · simp [matrixio_everloop_write, ha, hc]
  · simp [matrixio_everloop_write, ha, hc, not_lt.mpr hw]
  · simp [matrixio_everloop_write, ha, hc, hw]

/-- Witness for C10: with allocation failing the call returns -ENOMEM and no
register write; with both staging steps succeeding and the underlying write
failing with -5 the error propagates; with the write succeeding the call returns
the length 10 and forwards 10 bytes to the everloop base address. -/
theorem everloop_write_behaviour_witness :
    matrixio_everloop_write 10 false true 0 = (-ENOMEM, none)
    ∧ (matrixio_everloop_write 10 true true (-5)).1 = -5
    ∧ (matrixio_everloop_write 10 true true 0).1 = 10
    ∧ (matrixio_everloop_write 10 true true 0).2
        = some (MATRIXIO_EVERLOOP_BASE, 10) := by
  refine ⟨(everloop_write_behaviour 10 false true 0).1 rfl,
          ((everloop_write_behaviour 10 true true (-5)).2.2 rfl rfl).2.2 (by decide),
          ((everloop_write_behaviour 10 true true 0).2.2 rfl rfl).2.1 (by decide),
          ((everloop_write_behaviour 10 true true 0).2.2 rfl rfl).1⟩

/-- The two concurrent callers of the race model of matrixio_regmap_ioctl. -/
inductive Caller where
  | A
  | B
deriving DecidableEq

/-- Ownership state of the shared static staging buffer data[12000] of
matrixio_regmap_ioctl: which caller last wrote the header region data[0..1]
(the first copy_from_user) and which caller last wrote the payload region
data[2..] (the second copy_from_user); none means not written yet. -/
structure StagingBuf where
  hdrOwner : Option Caller
  payloadOwner : Option Caller
deriving DecidableEq

/-- One register write handed to matrixio_write by a WR_VALUE ioctl: the caller
that issued it, and whose bytes the header region and the payload region of the
shared staging buffer held at that moment (these bytes become the contents of
the physical exchange buffer of that logical operation). -/
structure ExchangeBuf where
  committer : Caller
  hdrOwner : Option Caller
  payloadOwner : Option Caller
deriving DecidableEq

/-- Interleaved-execution state of two concurrent WR_VALUE ioctl calls that share
the single static staging buffer of matrixio-regmap.c: each caller's program
counter through the three statements of the WR_VALUE branch, the staging buffer
ownership, and the register writes issued so far. -/
structure RaceState where
  pcA : Nat
  pcB : Nat
  buf : StagingBuf
  exchanges : List ExchangeBuf
deriving DecidableEq

/-- State before either ioctl call has executed a statement. -/
def raceStart : RaceState := ⟨0, 0, ⟨none, none⟩, []⟩

/-- Program counter of a caller. -/
def pcOf (s : RaceState) : Caller → Nat
  | Caller.A => s.pcA
  | Caller.B => s.pcB

/-- Replace the program counter of a caller. -/
def setPc (s : RaceState) (c : Caller) (n : Nat) : RaceState :=
  match c with
  | Caller.A => { s with pcA := n }
  | Caller.B => { s with pcB := n }

/-- One step of caller c through the WR_VALUE branch of matrixio_regmap_ioctl
(src/src/matrixio-regmap.c, lines 43-52).  Step 0: copy_from_user(data,
user_buffer, 8) writes the header region of the shared static buffer.  Step 1:
copy_from_user(&data[2], user_buffer + 2, data[1]) writes the payload region.
Step 2: matrixio_write(el->mio, data[0], data[1], &data[2]) issues the register
write from whatever the shared buffer holds at that moment; the transport core's
lock makes this step atomic, but no lock covers steps 0 and 1. -/
def raceStep (s : RaceState) (c : Caller) : RaceState :=
  match pcOf s c with
  | 0 => setPc { s with buf := { s.buf with hdrOwner := some c } } c 1
  | 1 => setPc { s with buf := { s.buf with payloadOwner := some c } } c 2
  | 2 => setPc { s with exchanges :=
            s.exchanges ++ [⟨c, s.buf.hdrOwner, s.buf.payloadOwner⟩] } c 3
  | _ => s

/-- Run an interleaving: each list entry is the caller taking its next step. -/
def runSchedule : List Caller → RaceState → RaceState
  | [], s => s
  | c :: rest, s => runSchedule rest (raceStep s c)

/-- An exchange buffer whose header region and payload region hold bytes staged
by two different callers, i.e. by two different logical operations. -/
def mixedExchange (e : ExchangeBuf) : Bool :=
  match e.hdrOwner, e.payloadOwner with
  | some c1, some c2 => decide (c1 ≠ c2)
  | _, _ => false

/-- C2: the claim says no single physical exchange's buffer ever contains
interleaved bytes from two different logical operations.  Because the staging
buffer of matrixio_regmap_ioctl is a single unsynchronized static array shared
by all callers, the interleaving in which caller A stages its header and
payload, caller B then stages its header, and A then calls matrixio_write hands
the transport core an exchange whose header bytes come from B's logical
operation and whose payload bytes come from A's — one exchange buffer mixing two
operations. -/
theorem regmap_shared_staging_race :
    (runSchedule [Caller.A, Caller.A, Caller.B, Caller.A] raceStart).exchanges
      = [⟨Caller.A, some Caller.B, some Caller.A⟩]
    ∧ mixedExchange ⟨Caller.A, some Caller.B, some Caller.A⟩ = true := by
  decide

/-- MATRIXIO_SPI_BOUNCE_SIZE, the compile-time bounce-buffer capacity in bytes.
Declared in matrixio-core.h (absent from src/); the unit test
test_spi_bounce_size_threshold (src/tests/unit/test-matrixio-core.c, line 42)
pins the value to 2048. -/
def MATRIXIO_SPI_BOUNCE_SIZE : Nat := 2048

/-- Size in bytes of the wire command header: one direction bit plus a 15-bit
register address makes 2 bytes (src/tests/unit/test-matrixio-core.c, line 20). -/
def headerSize : Nat := 2

/-- Direction of a register operation. -/
inductive Direction where
  | read
  | write
deriving DecidableEq

/-- Wire value of the direction flag: the hardware command field is named
readnwrite (read-not-write) in the tests, so read is 1 and write is 0. -/
def dirBit : Direction → Nat
  | Direction.read => 1
  | Direction.write => 0

/-- Modelled from the spec: encode_header of the Wire Protocol Codec
(matrixio-core.c, absent from src/).  Packs the direction flag and a validated
15-bit address into 2 bytes, direction in the high bit of the first byte and the
address in the remaining 15 bits, high address bits first. -/
def encode_header (dir : Direction) (addr : Nat) : List Nat :=
  [dirBit dir * 128 + addr / 256, addr % 256]

/-- C6: for every direction flag and every validated 15-bit address the encoded
command header is exactly 2 bytes, both genuine byte values; the direction flag
occupies the high bit of the first byte (it is recovered by dividing the first
byte by 128, untouched by the address), and the 15-bit address occupies exactly
the remaining bits (it is recovered from the low 7 bits of the first byte and
the second byte, untouched by the direction flag) — so the two fields never
overlap. -/
theorem encode_header_packing (dir : Direction) (addr : Nat)
    (h : addr ≤ 0x7FFF) :
    (encode_header dir addr).length = 2
    ∧ (encode_header dir addr).getD 0 0 / 128 = dirBit dir
    ∧ (encode_header dir addr).getD 0 0 % 128 * 256
        + (encode_header dir addr).getD 1 0 = addr
    ∧ ∀ b ∈ encode_header dir addr, b < 256 := by
  have hd : dirBit dir ≤ 1 := by cases dir <;> simp [dirBit]
  refine ⟨rfl, ?_, ?_, ?_⟩
  · simp only [encode_header, List.getD]
    cases dir <;> simp [dirBit] <;> omega
  · simp only [encode_header, List.getD]
    cases dir <;> simp [dirBit] <;> omega
  · intro b hb
    simp only [encode_header, List.mem_cons, List.not_mem_nil, or_false] at hb
    rcases hb with hb | hb <;> omega

/-- Witness for C6: the header for a read of address 0x1234 is the two bytes
0x92 and 0x34; the direction bit sits in the high bit of 0x92 and the address
is recovered from the remaining 15 bits. -/
theorem encode_header_packing_witness :
    (encode_header Direction.read 0x1234).length = 2
    ∧ (encode_header Direction.read 0x1234).getD 0 0 / 128
        = dirBit Direction.read
    ∧ (encode_header Direction.read 0x1234).getD 0 0 % 128 * 256
        + (encode_header Direction.read 0x1234).getD 1 0 = 0x1234 := by
  have h := encode_header_packing Direction.read 0x1234 (by decide)
  exact ⟨h.1, h.2.1, h.2.2.1⟩

/-- Kernel page size in bytes on the reference targets. -/
def PAGE_SIZE : Nat := 4096

/-- Result of the Address/Size Validator. -/
inductive ValidateResult where
  | Ok
  | Rejected
deriving DecidableEq

/-- Modelled from the spec: validate of the Address/Size Validator
(matrixio-core.c, absent from src/).  Rejects an address beyond the 15-bit
register space (> 0x7FFF); rejects a length whose header + payload total exceeds
the page-sized staging bound of the ioctl path; accepts length = 0; never clamps
or truncates. -/
def validate (addr len : Nat) : ValidateResult :=
  if 0x7FFF < addr then ValidateResult.Rejected
  else if PAGE_SIZE < headerSize + len then ValidateResult.Rejected
  else ValidateResult.Ok

/-- Largest payload a single physical exchange may carry: the bounce-buffer
capacity minus the command-header size, 2046 bytes. -/
def maxPayload : Nat := MATRIXIO_SPI_BOUNCE_SIZE - headerSize

/-- Fuel-indexed splitting of a byte list into consecutive chunks of at most
m + 1 bytes; the fuel bounds the recursion depth and any fuel at least the
length of the list is enough. -/
def chunksOfFuel (m : Nat) : Nat → List Nat → List (List Nat)
  | _, [] => []
  | 0, l => [l]
  | fuel + 1, x :: xs => (x :: xs.take m) :: chunksOfFuel m fuel (xs.drop m)

/-- Split a byte list into consecutive chunks of at most m + 1 bytes. -/
def chunksOf (m : Nat) (l : List Nat) : List (List Nat) :=
  chunksOfFuel m l.length l

theorem chunksOfFuel_flatten (m : Nat) :
    ∀ (fuel : Nat) (l : List Nat), l.length ≤ fuel →
      (chunksOfFuel m fuel l).flatten = l := by
  intro fuel
  induction fuel with
  | zero =>
    intro l h
    have hl : l = [] := List.length_eq_zero.mp (Nat.le_zero.mp h)
    simp [hl, chunksOfFuel]
  | succ f ih =>
    intro l h
    cases l with
    | nil => simp [chunksOfFuel]
    | cons x xs =>
      have hlen : (xs.drop m).length ≤ f := by
        rw [List.length_drop]
        simp only [List.length_cons] at h
        omega
      simp only [chunksOfFuel, List.flatten_cons, ih (xs.drop m) hlen, List.cons_append]
      rw [List.take_append_drop]

theorem chunksOf_flatten (m : Nat) (l : List Nat) : (chunksOf m l).flatten = l :=
  chunksOfFuel_flatten m l.length l (Nat.le_refl _)

theorem chunksOfFuel_chunk_le (m : Nat) :
    ∀ (fuel : Nat) (l : List Nat), l.length ≤ fuel →
      ∀ c ∈ chunksOfFuel m fuel l, c.length ≤ m + 1 := by
  intro fuel
  induction fuel with
  | zero =>
    intro l h
    have hl : l = [] := List.length_eq_zero.mp (Nat.le_zero.mp h)
    simp [hl, chunksOfFuel]
  | succ f ih =>
    intro l h c hc
    cases l with
    | nil => simp [chunksOfFuel] at hc
    | cons x xs =>
      have hlen : (xs.drop m).length ≤ f := by
        rw [List.length_drop]
        simp only [List.length_cons] at h
        omega
      simp only [chunksOfFuel, List.mem_cons] at hc
      rcases hc with hc | hc
      · subst hc
        simp only [List.length_cons, List.length_take]
        omega
      · exact ih (xs.drop m) hlen c hc

theorem chunksOf_chunk_le (m : Nat) (l : List Nat) :
    ∀ c ∈ chunksOf m l, c.length ≤ m + 1 :=
  chunksOfFuel_chunk_le m l.length l (Nat.le_refl _)

theorem chunksOf_cons_ne_nil (m x : Nat) (xs : List Nat) :
    chunksOf m (x :: xs) ≠ [] := by
  simp [chunksOf, chunksOfFuel]

/-- One physical SPI exchange of the engine: the command-header bytes it carries
(empty for the payload chunks of a split operation, whose address advances by
the device's auto-increment) and its payload bytes. -/
structure PhysExchange where
  header : List Nat
  payload : List Nat
deriving DecidableEq

/-- Modelled from the spec: the exchange plan of the Bounce-Buffer Transfer
Engine (matrixio-core.c, absent from src/).  A zero-length operation plans no
exchange; an operation whose header + payload fit in the bounce buffer is one
exchange carrying header and full payload; a larger operation uses the split
pattern — a header-only exchange positioning the device's address pointer,
followed by payload chunks of at most capacity − header bytes each. -/
def planExchanges (dir : Direction) (addr : Nat) (data : List Nat) :
    List PhysExchange :=
  if data.length = 0 then []
  else if headerSize + data.length ≤ MATRIXIO_SPI_BOUNCE_SIZE then
    [⟨encode_header dir addr, data⟩]
  else
    ⟨encode_header dir addr, []⟩ ::
      (chunksOf (maxPayload - 1) data).map (fun c => ⟨[], c⟩)

/-- Error taxonomy of the transfer path: InvalidArgument from the validator,
TransportError from a failed physical exchange. -/
inductive XferError where
  | InvalidArgument
  | TransportError
deriving DecidableEq

/-- The two states of the transport context: Idle when the Bus Serialization
Gate is free, Transferring while a logical operation holds it. -/
inductive LockState where
  | Idle
  | Transferring
deriving DecidableEq

/-- Modelled from the spec: sequential execution of the planned physical
exchanges while the Bus Serialization Gate is held.  spiOk k tells whether the
k-th physical exchange succeeds; the result carries how many exchanges were
actually issued — a failing exchange counts as issued, the ones after it are
never issued. -/
def runExchanges (spiOk : Nat → Bool) :
    List PhysExchange → Nat → Except XferError Unit × Nat
  | [], k => (Except.ok (), k)
  | _ :: rest, k =>
    if spiOk k then runExchanges spiOk rest (k + 1)
    else (Except.error XferError.TransportError, k + 1)

/-- Modelled from the spec: a logical register operation of matrixio-core.c
(absent from src/): the validator runs first; on rejection nothing touches the
bus; otherwise the Bus Serialization Gate is acquired, the planned exchanges run
in order, and the gate is released unconditionally — success or failure —
returning the context to Idle.  The result is (outcome, number of physical
exchanges issued, final lock state). -/
def matrixio_transfer (dir : Direction) (addr : Nat) (data : List Nat)
    (spiOk : Nat → Bool) : Except XferError Unit × Nat × LockState :=
  match validate addr data.length with
  | ValidateResult.Rejected =>
      (Except.error XferError.InvalidArgument, 0, LockState.Idle)
  | ValidateResult.Ok =>
      ((runExchanges spiOk (planExchanges dir addr data) 0).1,
       (runExchanges spiOk (planExchanges dir addr data) 0).2,
       LockState.Idle)

/-- C4: for every operation whose address exceeds 0x7FFF the validator returns
Rejected, the transfer issues zero physical exchanges and fails with
InvalidArgument — a condition distinct from TransportError — and the address is
never clamped or truncated (no exchange of any kind is attempted). -/
theorem address_out_of_range_rejected (dir : Direction) (addr len : Nat)
    (data : List Nat) (spiOk : Nat → Bool) (h : 0x7FFF < addr) :
    validate addr len = ValidateResult.Rejected
    ∧ matrixio_transfer dir addr data spiOk
        = (Except.error XferError.InvalidArgument, 0, LockState.Idle)
    ∧ XferError.InvalidArgument ≠ XferError.TransportError := by
  have hv : ∀ n, validate addr n = ValidateResult.Rejected := by
    intro n
    simp [validate, h]
  refine ⟨hv len, ?_, by decide⟩
  simp [matrixio_transfer, hv data.length]

/-- Witness for C4: a one-byte read at address 0x8000 is rejected with
InvalidArgument and zero physical exchanges. -/
theorem address_out_of_range_rejected_witness :
    validate 0x8000 1 = ValidateResult.Rejected
    ∧ matrixio_transfer Direction.read 0x8000 [7] (fun _ => true)
        = (Except.error XferError.InvalidArgument, 0, LockState.Idle) := by
  have h := address_out_of_range_rejected Direction.read 0x8000 1 [7]
    (fun _ => true) (by decide)
  exact ⟨h.1, h.2.1⟩

/-- C8: for every valid address, an operation of length 0 succeeds and issues
zero physical exchanges, leaving the context Idle. -/
theorem zero_length_noop (dir : Direction) (addr : Nat) (spiOk : Nat → Bool)
    (h : addr ≤ 0x7FFF) :
    matrixio_transfer dir addr [] spiOk
      = (Except.ok (), 0, LockState.Idle) := by
  have hv : validate addr 0 = ValidateResult.Ok := by
    unfold validate
    rw [if_neg (by omega), if_neg (by decide)]
  simp [matrixio_transfer, hv, planExchanges, runExchanges]

/-- Witness for C8: a zero-length operation at address 0x0100 succeeds with zero
physical exchanges. -/
theorem zero_length_noop_witness :
    matrixio_transfer Direction.write 0x0100 [] (fun _ => false)
      = (Except.ok (), 0, LockState.Idle) :=
  zero_length_noop Direction.write 0x0100 (fun _ => false) (by decide)

/-- C5: the bounce-buffer capacity is the compile-time constant 2048 bytes; no
planned physical exchange carries a payload longer than capacity minus header
size; the concatenation, in order, of the payloads of the planned exchanges is
exactly the logical payload; and a logical operation longer than capacity minus
header size is realized by at least two physical exchanges. -/
theorem bounce_buffer_invariants (dir : Direction) (addr : Nat)
    (data : List Nat) :
    MATRIXIO_SPI_BOUNCE_SIZE = 2048
    ∧ (∀ e ∈ planExchanges dir addr data,
        e.payload.length ≤ MATRIXIO_SPI_BOUNCE_SIZE - headerSize)
    ∧ ((planExchanges dir addr data).map PhysExchange.payload).flatten = data
    ∧ (MATRIXIO_SPI_BOUNCE_SIZE - headerSize < data.length →
        2 ≤ (planExchanges dir addr data).length) := by
  refine ⟨rfl, ?_, ?_, ?_⟩
  · intro e he
    unfold planExchanges at he
    by_cases h0 : data.length = 0
    · simp [h0] at he
    · rw [if_neg h0] at he
      by_cases h1 : headerSize + data.length ≤ MATRIXIO_SPI_BOUNCE_SIZE
      · rw [if_pos h1] at he
        simp only [List.mem_singleton] at he
        subst he
        simp only [MATRIXIO_SPI_BOUNCE_SIZE, headerSize] at h1 ⊢
        omega
      · rw [if_neg h1] at he
        simp only [List.mem_cons, List.mem_map] at he
        rcases he with he | ⟨c, hc, he⟩
        · subst he
          simp
        · subst he
          have := chunksOf_chunk_le (maxPayload - 1) data c hc
          simp only [maxPayload, MATRIXIO_SPI_BOUNCE_SIZE, headerSize] at this ⊢
          omega
  · unfold planExchanges
    by_cases h0 : data.length = 0
    · rw [if_pos h0]
      simp [List.length_eq_zero.mp h0]
    · rw [if_neg h0]
      by_cases h1 : headerSize + data.length ≤ MATRIXIO_SPI_BOUNCE_SIZE
      · rw [if_pos h1]
        simp
      · rw [if_neg h1]
        simp only [List.map_cons, List.map_map, List.flatten_cons]
        have hmap : (PhysExchange.payload ∘ fun c => PhysExchange.mk [] c)
            = id := rfl
        rw [hmap, List.map_id, chunksOf_flatten]
        simp
  · intro hlen
    unfold planExchanges
    have h0 : data.length ≠ 0 := by
      simp only [MATRIXIO_SPI_BOUNCE_SIZE, headerSize] at hlen
      omega
    have h1 : ¬ headerSize + data.length ≤ MATRIXIO_SPI_BOUNCE_SIZE := by
      simp only [MATRIXIO_SPI_BOUNCE_SIZE, headerSize] at hlen ⊢
      omega
    rw [if_neg h0, if_neg h1]
    cases data with
    | nil => simp at h0
    | cons x xs =>
      have hne := chunksOf_cons_ne_nil (maxPayload - 1) x xs
      have hpos : 0 < (chunksOf (maxPayload - 1) (x :: xs)).length :=
        List.length_pos.mpr hne
      simp only [List.length_cons, List.length_map]
      omega

/-- Witness for C5: a 4096-byte logical payload is planned as at least two
physical exchanges whose payloads concatenate back to the original payload. -/
theorem bounce_buffer_invariants_witness :
    ((planExchanges Direction.write 0 (List.replicate 4096 7)).map
        PhysExchange.payload).flatten = List.replicate 4096 7
    ∧ 2 ≤ (planExchanges Direction.write 0 (List.replicate 4096 7)).length := by
  have h := bounce_buffer_invariants Direction.write 0 (List.replicate 4096 7)
  refine ⟨h.2.2.1, h.2.2.2 ?_⟩
  rw [List.length_replicate]
  norm_num [MATRIXIO_SPI_BOUNCE_SIZE, headerSize]

theorem runExchanges_fail (spiOk : Nat → Bool) :
    ∀ (plan : List PhysExchange) (s k : Nat), k < plan.length →
      spiOk (s + k) = false → (∀ j, j < k → spiOk (s + j) = true) →
      runExchanges spiOk plan s
        = (Except.error XferError.TransportError, s + k + 1) := by
  intro plan
  induction plan with
  | nil =>
    intro s k hk
    simp at hk
  | cons e rest ih =>
    intro s k hk hfail hbefore
    cases k with
    | zero =>
      have hs : spiOk s = false := by simpa using hfail
      simp [runExchanges, hs]
    | succ k =>
      have hs : spiOk s = true := by
        have := hbefore 0 (Nat.succ_pos k)
        simpa using this
      have hfail2 : spiOk (s + 1 + k) = false := by
        rw [show s + 1 + k = s + (k + 1) by omega]
        exact hfail
      have hbefore2 : ∀ j, j < k → spiOk (s + 1 + j) = true := by
        intro j hj
        rw [show s + 1 + j = s + (j + 1) by omega]
        exact hbefore (j + 1) (by omega)
      have hk2 : k < rest.length := by
        simpa using hk
      have hrec := ih (s + 1) k hk2 hfail2 hbefore2
      simp only [runExchanges, hs, if_true, hrec]
      rw [show s + 1 + k + 1 = s + (k + 1) + 1 by omega]

/-- C7: if the physical exchange primitive fails on exchange k of an m-exchange
logical operation (every earlier exchange having succeeded), the operation stops
with exactly k + 1 exchanges issued — exchanges k+1..m-1 are never issued — and
returns TransportError immediately with no retry, and the Bus Serialization Gate
is released: the transport context ends Idle. -/
theorem transport_error_aborts (dir : Direction) (addr : Nat) (data : List Nat)
    (spiOk : Nat → Bool) (k : Nat)
    (hv : validate addr data.length = ValidateResult.Ok)
    (hk : k < (planExchanges dir addr data).length)
    (hfail : spiOk k = false)
    (hbefore : ∀ j, j < k → spiOk j = true) :
    matrixio_transfer dir addr data spiOk
      = (Except.error XferError.TransportError, k + 1, LockState.Idle) := by
  have hrun := runExchanges_fail spiOk (planExchanges dir addr data) 0 k hk
    (by simpa using hfail) (by intro j hj; simpa using hbefore j hj)
  simp only [matrixio_transfer, hv, hrun]
  simp

/-- Witness for C7: a 3-byte write whose very first physical exchange fails
issues exactly that one exchange, returns TransportError and leaves the context
Idle. -/
theorem transport_error_aborts_witness :
    matrixio_transfer Direction.write 0 [1, 2, 3] (fun _ => false)
      = (Except.error XferError.TransportError, 1, LockState.Idle) :=
  transport_error_aborts Direction.write 0 [1, 2, 3] (fun _ => false) 0
    (by decide) (by decide) rfl (by intro j hj; omega)
